import Mathlib

set_option autoImplicit false

/-!
Shallow embedding of `src/avapi.py`, a command-line client for the Alpha
Vantage market-data API.  Pure data flow is modelled directly.  Network
transport and the CSV/JSON parsing done by external libraries (urllib,
pandas, json) are modelled as oracle functions passed to the command
handlers: `fetch` maps a URL to the row list that `pd.read_csv` would
return for it, and `jfetch` maps a URL to the JSON value that
`json.loads(urlopen(url).read())` would return.  Printed output, raised
exceptions, written files and fetched URLs are recorded in an explicit
result record.
-/

namespace Avapi

/-- A parsed data-frame row: column name to rendered cell value, in column
order. -/
abbrev Row := List (String × String)

/-- A JSON value as handled by the program: string leaves and objects with
ordered fields.  Numeric leaves of real payloads are rendered as strings;
the program never computes with them. -/
inductive JVal where
  | str (s : String)
  | obj (fields : List (String × JVal))

/-- The exceptions the program can raise: the four classes defined at the
top of `src/avapi.py`, plus the built-in NameError and KeyError that its
code can trigger. -/
inductive PyErr where
  | avapiJsonFileNotFoundError
  | avapiJsonEmptyError
  | invalidFunctionError
  | invalidIntervalError
  | nameError (n : String)
  | keyError (k : String)
deriving DecidableEq

/-- One event on a output stream: a printed message (`print` / `click.echo`
of a string) or a printed data-frame (`click.echo(df)`). -/
inductive OutEvent where
  | msg (s : String)
  | table (rows : List Row)
deriving DecidableEq

/-- The observable outcome of one command invocation: what was printed to
standard output, the exception left uncaught (if any), the files written,
and the URLs fetched. -/
structure CmdResult where
  stdout : List OutEvent
  uncaught : Option PyErr
  files : List String
  urls : List String
deriving DecidableEq

/-- The process exit status the Python interpreter produces for a handler
outcome: 1 when an exception escapes to the top level, 0 otherwise. -/
def exitCode (r : CmdResult) : Nat :=
  match r.uncaught with
  | some _ => 1
  | none => 0

/-- What the interpreter writes to the error stream: nothing on a normal
return, a traceback when an exception escapes.  The program itself never
writes to the error stream. -/
def stderrOut (r : CmdResult) : List String :=
  match r.uncaught with
  | some _ => ["Traceback (most recent call last): ..."]
  | none => []

/-- `STOCK_FUNC_LIST` from `src/avapi.py` (insertion-ordered dict). -/
def STOCK_FUNC_LIST : List (String × String) :=
  [("intraday", "TIME_SERIES_INTRADAY"),
   ("daily", "TIME_SERIES_DAILY"),
   ("weekly", "TIME_SERIES_WEEKLY"),
   ("monthly", "TIME_SERIES_MONTHLY"),
   ("global", "GLOBAL_QUOTE")]

/-- `CRYPTO_FUNC_LIST` from `src/avapi.py`. -/
def CRYPTO_FUNC_LIST : List (String × String) :=
  [("rating", "CRYPTO_RATING"),
   ("daily", "DIGITAL_CURRENCY_DAILY"),
   ("weekly", "DIGITAL_CURRENCY_WEEKLY"),
   ("monthly", "DIGITAL_CURRENCY_MONTHLY")]

/-- `INTERVAL_LIST` from `src/avapi.py`.  Defined in the source but never
consulted by any code path. -/
def INTERVAL_LIST : List String := ["1min", "5min", "15min", "30min", "60min"]

/-- The state of the credential file `avapi_key.json`: `none` when the file
does not exist, otherwise the parsed JSON object as an ordered field list
(string values). -/
abbrev CredFile := Option (List (String × String))

/-- Message printed by `read_key` when the credential file is missing (the
source text, including its missing word, is kept verbatim). -/
def KEY_MISSING_MSG : String :=
  "Error: \x27avapi_key.json\x27 file found. Try running \x27setkey\x27."

/-- Message printed by `read_key` when the credential file lacks a usable
key. -/
def KEY_EMPTY_MSG : String :=
  "Error: \x27avapi_key.json\x27 does not contain an API Key. Try running \x27setkey\x27."

/-- The `try` block of `read_key`: raises `avapiJsonFileNotFoundError` when
the file does not exist, `avapiJsonEmptyError` when the parsed object has
no `key` field or the field is the empty string, and returns the key
otherwise. -/
def read_key_body (fs : CredFile) : Except PyErr String :=
  match fs with
  | some j =>
    match List.lookup "key" j with
    | none => .error .avapiJsonEmptyError
    | some k => if k.length = 0 then .error .avapiJsonEmptyError else .ok k
  | none => .error .avapiJsonFileNotFoundError

/-- `read_key` from `src/avapi.py`: runs the body and catches its two
custom exceptions itself, printing a message and falling through to an
implicit `return None`.  The result pairs the value an exception would
still propagate as (never, for the two handled classes) with the list of
printed messages. -/
def read_key (fs : CredFile) : Except PyErr (Option String) × List String :=
  match read_key_body fs with
  | .ok k => (.ok (some k), [])
  | .error .avapiJsonFileNotFoundError => (.ok none, [KEY_MISSING_MSG])
  | .error .avapiJsonEmptyError => (.ok none, [KEY_EMPTY_MSG])
  | .error e => (.error e, [])

/-- Rendering of the value returned by `read_key()` when interpolated into
a URL f-string / `str.format`: Python renders `None` as the string
`"None"`. -/
def keyStr : Option String → String
  | some k => k
  | none => "None"

/-- `pandas.DataFrame.head(n)`: the first `n` rows for nonnegative `n`, and
all but the last `abs n` rows for negative `n`. -/
def pandas_head (n : Int) (rows : List Row) : List Row :=
  if 0 ≤ n then rows.take n.toNat
  else rows.take (rows.length - n.natAbs)

/-- `get_pandas_df` from `src/avapi.py`, over the rows the CSV at the URL
parses to: `pd.read_csv(url).head(n)` when `n != 0`, `pd.read_csv(url)`
otherwise. -/
def get_pandas_df (rows : List Row) (n : Int) : List Row :=
  if n ≠ 0 then pandas_head n rows else rows

/-- `BASE.format(fn, s, key)`: the template
`https://www.alphavantage.co/query?function={0}&symbol={1}&apikey={2}&datatype=csv`
with the three placeholders substituted. -/
def BASE_format (fn s key : String) : String :=
  "https://www.alphavantage.co/query?function=" ++ fn ++ "&symbol=" ++ s ++
    "&apikey=" ++ key ++ "&datatype=csv"

/-- The URL built by the `stock` command (lines 156-164): the branch
guarded by `function == "rating"` uses the `intraday` table entry and
appends an interval parameter; the other branch uses the entry for
`function` and appends nothing.  The table lookups cannot miss when
`function` passed the membership check. -/
def stock_url (function s i key : String) : String :=
  if function == "rating" then
    BASE_format ((List.lookup "intraday" STOCK_FUNC_LIST).getD "") s key
      ++ "&interval=" ++ i
  else
    BASE_format ((List.lookup function STOCK_FUNC_LIST).getD "") s key

/-- The URL built by the rating branch of the `crypto` command. -/
def crypto_rating_url (s key : String) : String :=
  "https://www.alphavantage.co/query?function=CRYPTO_RATING&symbol=" ++ s ++
    "&apikey=" ++ key

/-- The URL built by the time-series branch of the `crypto` command. -/
def crypto_series_url (fn s key : String) : String :=
  "https://www.alphavantage.co/query?function=" ++ fn ++ "&symbol=" ++ s ++
    "&market=USD&apikey=" ++ key ++ "&datatype=csv"

/-- The request-building step of the `crypto` command as a whole. -/
def crypto_url (function s key : String) : String :=
  if function == "rating" then crypto_rating_url s key
  else crypto_series_url ((List.lookup function CRYPTO_FUNC_LIST).getD "") s key

/-- The URL built by the `exrate` command. -/
def exrate_url (from_currency to_currency key : String) : String :=
  "https://www.alphavantage.co/query?function=CURRENCY_EXCHANGE_RATE&from_currency="
    ++ from_currency ++ "&to_currency=" ++ to_currency ++ "&apikey=" ++ key

/-- Whether the first character list is an initial segment of the
second. -/
def isPrefB : List Char → List Char → Bool
  | [], _ => true
  | _ :: _, [] => false
  | a :: as, b :: bs => a == b && isPrefB as bs

/-- Whether `pat` occurs as a contiguous run somewhere in the second
list. -/
def containsL (pat : List Char) : List Char → Bool
  | [] => isPrefB pat []
  | c :: rest => isPrefB pat (c :: rest) || containsL pat rest

/-- Substring containment on strings, used to state which provider
function identifier a built URL carries. -/
def strContains (hay pat : String) : Bool := containsL pat.data hay.data

/-- Python subscript `data[k]` on a JSON value: field lookup on an object,
failure otherwise. -/
def jIndex : JVal → String → Option JVal
  | .obj fields, k => List.lookup k fields
  | .str _, _ => none

mutual
/-- Leaf flattening performed by `pandas.json_normalize`: every leaf of the
object becomes one column whose name is the dot-joined path of field
names. -/
def json_flatten (pre : String) : JVal → List (String × String)
  | .str v => [(pre, v)]
  | .obj fields => json_flatten_fields pre fields

def json_flatten_fields (pre : String) : List (String × JVal) → List (String × String)
  | [] => []
  | (k, v) :: rest =>
      json_flatten (if pre == "" then k else pre ++ "." ++ k) v ++
        json_flatten_fields pre rest
end

/-- `pd.json_normalize(obj)` for a single JSON object: one row whose
columns are the flattened leaves, keyed by field NAME (dot-joined paths for
nested objects), in field order. -/
def json_normalize (j : JVal) : List Row :=
  [json_flatten "" j]

/-- The save filename built by both `stock` and `crypto`:
`f"{date.today()}_{function}_{s}_.csv"` (note the underscore between the
symbol and the extension). -/
def save_filename (today function s : String) : String :=
  today ++ "_" ++ function ++ "_" ++ s ++ "_.csv"

/-- The names bound at module level in `src/avapi.py` (imports, constants,
exception classes, functions).  Used for Python name resolution after the
local scope. -/
def module_global_names : List String :=
  ["click", "pd", "np", "json", "path", "date", "urlopen",
   "AVAPI_KEY_JSON", "BASE", "STOCK_FUNC_LIST", "CRYPTO_FUNC_LIST",
   "INTERVAL_LIST", "avapiJsonFileNotFoundError", "avapiJsonEmptyError",
   "invalidFunctionError", "invalidIntervalError", "read_key",
   "get_pandas_df", "main", "setkey", "exrate", "stock", "crypto"]

/-- Python name resolution for an interpolated name: the local scope (an
association of names to their rendered values) first, then the module
globals (whose rendering is irrelevant here: no f-string in the program
reaches one). -/
def lookupName (n : String) (locs : List (String × String)) : Option String :=
  match List.lookup n locs with
  | some v => some v
  | none =>
    if module_global_names.contains n then some ("<global " ++ n ++ ">")
    else none

/-- Evaluation of the f-string `f"{date.today()}_exrate_{f}_{t}.csv"` on
line 130 of `src/avapi.py` in the scope of `exrate`: the names `f` and `t`
are looked up and the first unbound one raises NameError. -/
def exrate_filename (today : String) (locs : List (String × String)) :
    Except PyErr String :=
  match lookupName "f" locs with
  | none => .error (.nameError "f")
  | some fv =>
    match lookupName "t" locs with
    | none => .error (.nameError "t")
    | some tv => .ok (today ++ "_exrate_" ++ fv ++ "_" ++ tv ++ ".csv")

/-- Message echoed by the `stock` handler for `invalidFunctionError`. -/
def INVALID_FN_MSG (function : String) : String :=
  "Error: Invalid function argument:\x27" ++ function ++ "\x27"

/-- Message echoed by the `crypto` handler for `invalidFunctionError`. -/
def INVALID_FN_MSG_CRYPTO (function : String) : String :=
  "Error: Invalid function argument for \x27avapi get\x27:\x27" ++ function ++ "\x27"

/-- Message echoed by the `stock` handler for `invalidIntervalError`. -/
def INVALID_INTERVAL_MSG (i : String) : String :=
  "Error: Invalid interval option:\x27" ++ i ++ "\x27"

/-- The `try` block of the `stock` command (lines 152-170): validates the
function argument, builds the URL (the two branches of the source differ
only in the URL, folded into `stock_url`), fetches and truncates the data,
echoes it, and optionally saves it.  Raised exceptions are recorded in
`uncaught` together with the output produced before the raise. -/
def stock_body (function s i : String) (n : Int) (save : Bool) (cred : CredFile)
    (today : String) (fetch : String → List Row) : CmdResult :=
  match List.lookup function STOCK_FUNC_LIST with
  | none => { stdout := [], uncaught := some .invalidFunctionError, files := [], urls := [] }
  | some _ =>
    match read_key cred with
    | (Except.error e, msgs) =>
        { stdout := msgs.map .msg, uncaught := some e, files := [], urls := [] }
    | (Except.ok kOpt, msgs) =>
        let url := stock_url function s i (keyStr kOpt)
        let df := get_pandas_df (fetch url) n
        let r : CmdResult :=
          { stdout := msgs.map .msg ++ [.table df], uncaught := none,
            files := [], urls := [url] }
        if save then { r with files := [save_filename today function s] } else r

/-- The `stock` command (lines 134-176): runs the body and applies the two
`except` clauses, each echoing a message and returning normally. -/
def stock (function s i : String) (n : Int) (save : Bool) (cred : CredFile)
    (today : String) (fetch : String → List Row) : CmdResult :=
  let r := stock_body function s i n save cred today fetch
  match r.uncaught with
  | some PyErr.invalidFunctionError =>
      { r with stdout := r.stdout ++ [.msg (INVALID_FN_MSG function)], uncaught := none }
  | some PyErr.invalidIntervalError =>
      { r with stdout := r.stdout ++ [.msg (INVALID_INTERVAL_MSG i)], uncaught := none }
  | _ => r

/-- The `try` block of the `crypto` command (lines 188-208): validates the
function argument; the rating branch fetches JSON, subscripts the field
`Crypto Rating (FCAS)` (KeyError when absent) and flattens it, the other
branch fetches CSV rows; both then echo and optionally save. -/
def crypto_body (function s : String) (n : Int) (save : Bool) (cred : CredFile)
    (today : String) (fetch : String → List Row) (jfetch : String → JVal) : CmdResult :=
  match List.lookup function CRYPTO_FUNC_LIST with
  | none => { stdout := [], uncaught := some .invalidFunctionError, files := [], urls := [] }
  | some _ =>
    match read_key cred with
    | (Except.error e, msgs) =>
        { stdout := msgs.map .msg, uncaught := some e, files := [], urls := [] }
    | (Except.ok kOpt, msgs) =>
      if function == "rating" then
        let url := crypto_rating_url s (keyStr kOpt)
        match jIndex (jfetch url) "Crypto Rating (FCAS)" with
        | none =>
            { stdout := msgs.map .msg,
              uncaught := some (.keyError "Crypto Rating (FCAS)"),
              files := [], urls := [url] }
        | some inner =>
            let df := json_normalize inner
            let r : CmdResult :=
              { stdout := msgs.map .msg ++ [.table df], uncaught := none,
                files := [], urls := [url] }
            if save then { r with files := [save_filename today function s] } else r
      else
        let url := crypto_series_url ((List.lookup function CRYPTO_FUNC_LIST).getD "")
          s (keyStr kOpt)
        let df := get_pandas_df (fetch url) n
        let r : CmdResult :=
          { stdout := msgs.map .msg ++ [.table df], uncaught := none,
            files := [], urls := [url] }
        if save then { r with files := [save_filename today function s] } else r

/-- The `crypto` command (lines 179-214): runs the body and applies the two
`except` clauses.  The `invalidIntervalError` clause itself interpolates
the name `i`, which is bound nowhere in the scope of `crypto`, so that
clause would raise NameError. -/
def crypto (function s : String) (n : Int) (save : Bool) (cred : CredFile)
    (today : String) (fetch : String → List Row) (jfetch : String → JVal) : CmdResult :=
  let r := crypto_body function s n save cred today fetch jfetch
  match r.uncaught with
  | some PyErr.invalidFunctionError =>
      { r with stdout := r.stdout ++ [.msg (INVALID_FN_MSG_CRYPTO function)], uncaught := none }
  | some PyErr.invalidIntervalError =>
      { r with uncaught := some (PyErr.nameError "i") }
  | _ => r

/-- The `exrate` command (lines 110-131): no validation and no `try`
block.  Builds the URL (calling `read_key`), fetches JSON, subscripts the
field `Realtime Currency Exchange Rate` (KeyError when absent), flattens
and echoes it, and when `--save` is set evaluates the filename f-string,
which resolves the names `f` and `t` in the scope of `exrate`. -/
def exrate (from_currency to_currency : String) (save : Bool) (cred : CredFile)
    (today : String) (jfetch : String → JVal) : CmdResult :=
  match read_key cred with
  | (Except.error e, msgs) =>
      { stdout := msgs.map .msg, uncaught := some e, files := [], urls := [] }
  | (Except.ok kOpt, msgs) =>
    let url := exrate_url from_currency to_currency (keyStr kOpt)
    match jIndex (jfetch url) "Realtime Currency Exchange Rate" with
    | none =>
        { stdout := msgs.map .msg,
          uncaught := some (.keyError "Realtime Currency Exchange Rate"),
          files := [], urls := [url] }
    | some inner =>
      let df := json_normalize inner
      let r : CmdResult :=
        { stdout := msgs.map .msg ++ [.table df], uncaught := none,
          files := [], urls := [url] }
      if save then
        match exrate_filename today
            [("from_currency", from_currency), ("to_currency", to_currency),
             ("save", "True"), ("url", url), ("data", "<json>"), ("df", "<DataFrame>")] with
        | .error e => { r with uncaught := some e }
        | .ok fname => { r with files := [fname] }
      else r

/-- The inner OHLCV object of the synthetic nested time-series payload
given in the specification, with its deliberately unhelpful key names. -/
def syntheticInner : JVal :=
  .obj [("1. foo", .str "10"), ("2. bar", .str "11"), ("3. baz", .str "9"),
        ("4. qux", .str "10.5"), ("5. vol", .str "1000")]

/-- The synthetic nested time-series payload from the specification. -/
def syntheticPayload : JVal :=
  .obj [("Time Series (5min)", .obj [("2024-01-01 09:30:00", syntheticInner)])]

/-- A small concrete row list used as a transport oracle result in
closed instances. -/
def demoRows : List Row := [[("t", "1")], [("t", "2")], [("t", "3")]]

/-- A concrete inner object for a successful exchange-rate response. -/
def rateInner : JVal := .obj [("5. Exchange Rate", .str "1.1")]

/-- A concrete successful exchange-rate response. -/
def ratePayload : JVal := .obj [("Realtime Currency Exchange Rate", rateInner)]

/-- A concrete successful crypto-rating response. -/
def ratingPayload : JVal := .obj [("Crypto Rating (FCAS)", .obj [("1. symbol", .str "BTC")])]

/-! ## Helper lemmas -/

theorem data_append (a b : String) : (a ++ b).data = a.data ++ b.data := rfl

theorem isPrefB_append (p : List Char) : ∀ l ys : List Char,
    isPrefB p l = true → isPrefB p (l ++ ys) = true := by
  induction p with
  | nil => intro l ys _; rfl
  | cons a as ih =>
    intro l ys h
    cases l with
    | nil => simp [isPrefB] at h
    | cons b bs =>
      simp only [isPrefB, List.cons_append, Bool.and_eq_true] at h ⊢
      exact ⟨h.1, ih bs ys h.2⟩

theorem isPrefB_self_append (p ys : List Char) : isPrefB p (p ++ ys) = true := by
  induction p with
  | nil => rfl
  | cons a as ih => simp [isPrefB, ih]

theorem containsL_append_right (p xs ys : List Char)
    (h : containsL p xs = true) : containsL p (xs ++ ys) = true := by
  induction xs with
  | nil =>
    cases p with
    | nil =>
      induction ys with
      | nil => rfl
      | cons c cs _ => simp [containsL, isPrefB]
    | cons a as => simp [containsL, isPrefB] at h
  | cons x xs ih =>
    simp only [containsL, Bool.or_eq_true, List.cons_append] at h ⊢
    cases h with
    | inl h => exact Or.inl (isPrefB_append _ _ _ h)
    | inr h => exact Or.inr (ih h)

theorem containsL_of_append_pat (A p : List Char) : containsL p (A ++ p) = true := by
  induction A with
  | nil =>
    cases p with
    | nil => rfl
    | cons a as =>
      simp only [List.nil_append, containsL, Bool.or_eq_true]
      exact Or.inl (by simpa using isPrefB_self_append (a :: as) [])
  | cons a A ih =>
    simp only [List.cons_append, containsL, Bool.or_eq_true]
    exact Or.inr ih

theorem strContains_BASE_format (fn s key : String) :
    strContains (BASE_format fn s key) fn = true := by
  show containsL fn.data (BASE_format fn s key).data = true
  simp only [BASE_format, data_append]
  apply containsL_append_right
  apply containsL_append_right
  apply containsL_append_right
  apply containsL_append_right
  apply containsL_append_right
  exact containsL_of_append_pat _ _

theorem strContains_crypto_series (fn s key : String) :
    strContains (crypto_series_url fn s key) fn = true := by
  show containsL fn.data (crypto_series_url fn s key).data = true
  simp only [crypto_series_url, data_append]
  apply containsL_append_right
  apply containsL_append_right
  apply containsL_append_right
  apply containsL_append_right
  apply containsL_append_right
  exact containsL_of_append_pat _ _

theorem strContains_crypto_rating (s key : String) :
    strContains (crypto_rating_url s key) "CRYPTO_RATING" = true := by
  show containsL "CRYPTO_RATING".data (crypto_rating_url s key).data = true
  simp only [crypto_rating_url, data_append]
  apply containsL_append_right
  apply containsL_append_right
  apply containsL_append_right
  decide

theorem read_key_ok (cred : CredFile) :
    ∃ kOpt msgs, read_key cred = (Except.ok kOpt, msgs) := by
  unfold read_key read_key_body
  match cred with
  | none => exact ⟨none, _, rfl⟩
  | some j =>
    match h : List.lookup "key" j with
    | none => exact ⟨none, [KEY_EMPTY_MSG], by simp [h]⟩
    | some k =>
      by_cases hk : k.length = 0
      · exact ⟨none, [KEY_EMPTY_MSG], by simp [h, hk]⟩
      · exact ⟨some k, [], by simp [h, hk]⟩

theorem stock_lookup_ne_rating {function fn : String}
    (h : List.lookup function STOCK_FUNC_LIST = some fn) :
    (function == "rating") = false := by
  cases hb : function == "rating" with
  | false => rfl
  | true =>
    have he : function = "rating" := eq_of_beq hb
    subst he
    have hn : List.lookup "rating" STOCK_FUNC_LIST = none := rfl
    rw [hn] at h
    exact Option.noConfusion h

theorem stock_eval {function fn : String} {cred : CredFile} {kOpt : Option String}
    {msgs : List String} (s i : String) (n : Int) (save : Bool) (today : String)
    (fetch : String → List Row)
    (hl : List.lookup function STOCK_FUNC_LIST = some fn)
    (hrk : read_key cred = (Except.ok kOpt, msgs)) :
    stock function s i n save cred today fetch =
      { stdout := msgs.map .msg ++
          [.table (get_pandas_df (fetch (BASE_format fn s (keyStr kOpt))) n)],
        uncaught := none,
        files := if save then [save_filename today function s] else [],
        urls := [BASE_format fn s (keyStr kOpt)] } := by
  have hg := stock_lookup_ne_rating hl
  unfold stock stock_body stock_url
  rw [hl]
  simp only [hrk, hg]
  cases save <;> rfl

theorem crypto_series_eval {function fn : String} {cred : CredFile} {kOpt : Option String}
    {msgs : List String} (s : String) (n : Int) (save : Bool) (today : String)
    (fetch : String → List Row) (jfetch : String → JVal)
    (hl : List.lookup function CRYPTO_FUNC_LIST = some fn)
    (hg : (function == "rating") = false)
    (hrk : read_key cred = (Except.ok kOpt, msgs)) :
    crypto function s n save cred today fetch jfetch =
      { stdout := msgs.map .msg ++
          [.table (get_pandas_df (fetch (crypto_series_url fn s (keyStr kOpt))) n)],
        uncaught := none,
        files := if save then [save_filename today function s] else [],
        urls := [crypto_series_url fn s (keyStr kOpt)] } := by
  unfold crypto crypto_body
  rw [hl]
  simp only [hrk, hg]
  cases save <;> rfl

theorem crypto_rating_eval {cred : CredFile} {kOpt : Option String} {msgs : List String}
    {inner0 : JVal} (s : String) (n : Int) (save : Bool) (today : String)
    (fetch : String → List Row) (jfetch : String → JVal)
    (hrk : read_key cred = (Except.ok kOpt, msgs))
    (hj : jIndex (jfetch (crypto_rating_url s (keyStr kOpt)))
        "Crypto Rating (FCAS)" = some inner0) :
    crypto "rating" s n save cred today fetch jfetch =
      { stdout := msgs.map .msg ++ [.table (json_normalize inner0)],
        uncaught := none,
        files := if save then [save_filename today "rating" s] else [],
        urls := [crypto_rating_url s (keyStr kOpt)] } := by
  unfold crypto crypto_body
  simp only [hrk]
  rw [hj]
  cases save <;> rfl

theorem exrate_eval {cred : CredFile} {kOpt : Option String} {msgs : List String}
    {inner0 : JVal} (fc tc : String) (save : Bool) (today : String) (jfetch : String → JVal)
    (hrk : read_key cred = (Except.ok kOpt, msgs))
    (hj : jIndex (jfetch (exrate_url fc tc (keyStr kOpt)))
        "Realtime Currency Exchange Rate" = some inner0) :
    exrate fc tc save cred today jfetch =
      { stdout := msgs.map .msg ++ [.table (json_normalize inner0)],
        uncaught := if save then some (.nameError "f") else none,
        files := [],
        urls := [exrate_url fc tc (keyStr kOpt)] } := by
  unfold exrate
  simp only [hrk]
  rw [hj]
  cases save <;> rfl

theorem stock_body_uncaught (function s i : String) (n : Int) (save : Bool)
    (cred : CredFile) (today : String) (fetch : String → List Row) :
    (stock_body function s i n save cred today fetch).uncaught = none ∨
      (stock_body function s i n save cred today fetch).uncaught =
        some PyErr.invalidFunctionError := by
  obtain ⟨kOpt, msgs, hrk⟩ := read_key_ok cred
  unfold stock_body
  cases hl : List.lookup function STOCK_FUNC_LIST with
  | none => right; rfl
  | some fn =>
    simp only [hrk]
    left
    cases save <;> rfl

theorem crypto_body_uncaught (function s : String) (n : Int) (save : Bool)
    (cred : CredFile) (today : String) (fetch : String → List Row)
    (jfetch : String → JVal) :
    (crypto_body function s n save cred today fetch jfetch).uncaught = none ∨
      (crypto_body function s n save cred today fetch jfetch).uncaught =
        some PyErr.invalidFunctionError ∨
      (crypto_body function s n save cred today fetch jfetch).uncaught =
        some (PyErr.keyError "Crypto Rating (FCAS)") := by
  obtain ⟨kOpt, msgs, hrk⟩ := read_key_ok cred
  unfold crypto_body
  cases hl : List.lookup function CRYPTO_FUNC_LIST with
  | none => right; left; rfl
  | some fn =>
    simp only [hrk]
    cases hb : function == "rating" with
    | false => left; cases save <;> rfl
    | true =>
      cases hj : jIndex (jfetch (crypto_rating_url s (keyStr kOpt)))
          "Crypto Rating (FCAS)" with
      | none => right; right; rfl
      | some inner0 => left; cases save <;> rfl

theorem exrate_uncaught (fc tc : String) (save : Bool) (cred : CredFile)
    (today : String) (jfetch : String → JVal) :
    (exrate fc tc save cred today jfetch).uncaught = none ∨
      (exrate fc tc save cred today jfetch).uncaught =
        some (PyErr.keyError "Realtime Currency Exchange Rate") ∨
      (exrate fc tc save cred today jfetch).uncaught =
        some (PyErr.nameError "f") := by
  obtain ⟨kOpt, msgs, hrk⟩ := read_key_ok cred
  unfold exrate
  simp only [hrk]
  cases hj : jIndex (jfetch (exrate_url fc tc (keyStr kOpt)))
      "Realtime Currency Exchange Rate" with
  | none => right; left; rfl
  | some inner0 =>
    cases save with
    | false => left; rfl
    | true => right; right; rfl

theorem exrate_files_nil (fc tc : String) (save : Bool) (cred : CredFile)
    (today : String) (jfetch : String → JVal) :
    (exrate fc tc save cred today jfetch).files = [] := by
  obtain ⟨kOpt, msgs, hrk⟩ := read_key_ok cred
  unfold exrate
  simp only [hrk]
  cases hj : jIndex (jfetch (exrate_url fc tc (keyStr kOpt)))
      "Realtime Currency Exchange Rate" with
  | none => rfl
  | some inner0 => cases save <;> rfl

theorem stock_i_irrelevant (function s i i2 : String) (n : Int) (save : Bool)
    (cred : CredFile) (today : String) (fetch : String → List Row) :
    stock function s i n save cred today fetch =
      stock function s i2 n save cred today fetch := by
  obtain ⟨kOpt, msgs, hrk⟩ := read_key_ok cred
  unfold stock stock_body stock_url
  cases hl : List.lookup function STOCK_FUNC_LIST with
  | none => rfl
  | some fn =>
    have hg : (function == "rating") = false := stock_lookup_ne_rating hl
    simp only [hrk, hg]
    cases save <;> rfl

/-! ## Claim theorems -/

/-- Claim C1, counterexample.  The code has no positional nested-JSON
time-series normalizer: on the synthetic payload from the specification,
both JSON-handling paths (exrate and crypto rating) select a fixed field
by NAME, miss it, and crash with KeyError instead of producing the record
with open 10, high 11, low 9, close 10.5, volume 1000. -/
theorem c1_counterexample :
    exrate "USD" "EUR" false (some [("key", "K")]) "2026-10-12"
        (fun _ => syntheticPayload) =
      { stdout := [], uncaught := some (.keyError "Realtime Currency Exchange Rate"),
        files := [], urls := [exrate_url "USD" "EUR" "K"] } ∧
    crypto "rating" "BTC" 0 false (some [("key", "K")]) "2026-10-12" (fun _ => [])
        (fun _ => syntheticPayload) =
      { stdout := [], uncaught := some (.keyError "Crypto Rating (FCAS)"),
        files := [], urls := [crypto_rating_url "BTC" "K"] } :=
  ⟨rfl, rfl⟩

/-- Claim C1, amended.  The program normalizes JSON by key name, never
positionally: on the synthetic payload every JSON path raises KeyError for
its hard-coded field, and the flattening it applies to inner objects keeps
the provider key names (the synthetic inner object flattens to columns
named 1. foo through 5. vol), with no open/high/low/close/volume mapping
anywhere. -/
theorem c1_amended :
    (∀ fc tc cred today,
        (exrate fc tc false cred today (fun _ => syntheticPayload)).uncaught =
          some (PyErr.keyError "Realtime Currency Exchange Rate")) ∧
    (∀ s n save cred today fetch,
        (crypto "rating" s n save cred today fetch (fun _ => syntheticPayload)).uncaught =
          some (PyErr.keyError "Crypto Rating (FCAS)")) ∧
    json_normalize syntheticInner =
      [[("1. foo", "10"), ("2. bar", "11"), ("3. baz", "9"),
        ("4. qux", "10.5"), ("5. vol", "1000")]] := by
  refine ⟨?_, ?_, rfl⟩
  · intro fc tc cred today
    obtain ⟨kOpt, msgs, hrk⟩ := read_key_ok cred
    unfold exrate
    simp only [hrk]
    rfl
  · intro s n save cred today fetch
    obtain ⟨kOpt, msgs, hrk⟩ := read_key_ok cred
    unfold crypto crypto_body
    simp only [hrk]
    rfl

/-- Claim C2.  For every valid pair in the function tables, the
request-building step produces a URL containing the correctly mapped
provider function identifier (stock daily to TIME_SERIES_DAILY, crypto
rating to CRYPTO_RATING, and so on). -/
theorem c2_function_identifier (s key i : String) :
    (∀ p ∈ STOCK_FUNC_LIST, strContains (stock_url p.1 s i key) p.2 = true) ∧
    (∀ p ∈ CRYPTO_FUNC_LIST, strContains (crypto_url p.1 s key) p.2 = true) := by
  constructor
  · intro p hp
    simp only [STOCK_FUNC_LIST, List.mem_cons, List.not_mem_nil, or_false] at hp
    rcases hp with rfl | rfl | rfl | rfl | rfl <;>
      exact strContains_BASE_format _ s key
  · intro p hp
    simp only [CRYPTO_FUNC_LIST, List.mem_cons, List.not_mem_nil, or_false] at hp
    rcases hp with rfl | rfl | rfl | rfl
    · exact strContains_crypto_rating s key
    · exact strContains_crypto_series _ s key
    · exact strContains_crypto_series _ s key
    · exact strContains_crypto_series _ s key

/-- Claim C2, witness at concrete table entries. -/
theorem c2_witness :
    strContains (stock_url "daily" "IBM" "30min" "K") "TIME_SERIES_DAILY" = true ∧
    strContains (crypto_url "rating" "BTC" "K") "CRYPTO_RATING" = true :=
  ⟨(c2_function_identifier "IBM" "K" "30min").1 ("daily", "TIME_SERIES_DAILY") (by decide),
   (c2_function_identifier "BTC" "K" "30min").2 ("rating", "CRYPTO_RATING") (by decide)⟩

/-- Claim C3, counterexample.  An intraday request with the invalid
interval 2h does NOT fail with invalidIntervalError: it returns the
ordinary table result (and the built URL does not even mention the
interval). -/
theorem c3_counterexample :
    INTERVAL_LIST.contains "2h" = false ∧
    stock "intraday" "IBM" "2h" 0 false (some [("key", "K")]) "2026-10-12"
        (fun _ => demoRows) =
      { stdout := [.table demoRows], uncaught := none, files := [],
        urls := [BASE_format "TIME_SERIES_INTRADAY" "IBM" "K"] } :=
  ⟨rfl, rfl⟩

/-- Claim C3, amended.  The interval argument is never validated and has
no effect on any stock invocation (intraday included), and no stock
invocation ever raises invalidIntervalError. -/
theorem c3_amended :
    (∀ s i n save cred today fetch,
        stock "intraday" s i n save cred today fetch =
          stock "intraday" s "30min" n save cred today fetch) ∧
    (∀ function s i i2 n save cred today fetch,
        stock function s i n save cred today fetch =
          stock function s i2 n save cred today fetch) ∧
    (∀ function s i n save cred today fetch,
        (stock_body function s i n save cred today fetch).uncaught = none ∨
        (stock_body function s i n save cred today fetch).uncaught =
          some PyErr.invalidFunctionError) :=
  ⟨fun s i n save cred today fetch =>
      stock_i_irrelevant "intraday" s i "30min" n save cred today fetch,
   fun function s i i2 n save cred today fetch =>
      stock_i_irrelevant function s i i2 n save cred today fetch,
   fun function s i n save cred today fetch =>
      stock_body_uncaught function s i n save cred today fetch⟩

/-- Claim C4.  Limit truncation: a limit strictly between zero and the
record count keeps exactly the first records in original order, and a zero
(or absent, the CLI default being zero) limit keeps everything. -/
theorem c4_limit_truncation :
    (∀ (rows : List Row) (n : Int), 0 < n → n < (rows.length : Int) →
        get_pandas_df rows n = rows.take n.toNat) ∧
    (∀ rows : List Row, get_pandas_df rows 0 = rows) := by
  constructor
  · intro rows n h0 _hlen
    unfold get_pandas_df pandas_head
    rw [if_pos (by omega : n ≠ 0), if_pos (by omega : (0 : Int) ≤ n)]
  · intro rows
    unfold get_pandas_df
    rw [if_neg (by omega : ¬((0 : Int) ≠ 0))]

/-- Claim C4, witness on a concrete three-row sequence and limit two. -/
theorem c4_witness :
    get_pandas_df demoRows 2 = demoRows.take (2 : Int).toNat ∧
    get_pandas_df demoRows 0 = demoRows :=
  ⟨c4_limit_truncation.1 demoRows 2 (by decide) (by decide),
   c4_limit_truncation.2 demoRows⟩

/-- Claim C5, counterexample.  A successful saving stock invocation writes
a file whose name carries an extra underscore before the extension, not
the claimed date underscore function underscore symbol dot csv. -/
theorem c5_counterexample :
    (stock "daily" "IBM" "30min" 0 true (some [("key", "K")]) "2026-10-12"
        (fun _ => demoRows)).files = ["2026-10-12_daily_IBM_.csv"] ∧
    (("2026-10-12_daily_IBM_.csv" == "2026-10-12_daily_IBM.csv") = false) :=
  ⟨rfl, rfl⟩

/-- Claim C5, amended.  Saving stock and crypto invocations write exactly
one file named date underscore function underscore symbol underscore dot
csv (trailing underscore before the extension); a saving exrate invocation
writes no file at all. -/
theorem c5_amended :
    (∀ function fn s i n cred today fetch,
        List.lookup function STOCK_FUNC_LIST = some fn →
        (stock function s i n true cred today fetch).files =
          [today ++ "_" ++ function ++ "_" ++ s ++ "_.csv"]) ∧
    (∀ function fn s n cred today fetch jfetch,
        List.lookup function CRYPTO_FUNC_LIST = some fn →
        (function == "rating") = false →
        (crypto function s n true cred today fetch jfetch).files =
          [today ++ "_" ++ function ++ "_" ++ s ++ "_.csv"]) ∧
    (∀ s n cred today fetch jfetch kOpt msgs inner0,
        read_key cred = (Except.ok kOpt, msgs) →
        jIndex (jfetch (crypto_rating_url s (keyStr kOpt)))
            "Crypto Rating (FCAS)" = some inner0 →
        (crypto "rating" s n true cred today fetch jfetch).files =
          [today ++ "_" ++ "rating" ++ "_" ++ s ++ "_.csv"]) ∧
    (∀ fc tc save cred today jfetch,
        (exrate fc tc save cred today jfetch).files = []) := by
  refine ⟨?_, ?_, ?_, fun fc tc save cred today jfetch =>
      exrate_files_nil fc tc save cred today jfetch⟩
  · intro function fn s i n cred today fetch hl
    obtain ⟨kOpt, msgs, hrk⟩ := read_key_ok cred
    rw [stock_eval s i n true today fetch hl hrk]
    rfl
  · intro function fn s n cred today fetch jfetch hl hg
    obtain ⟨kOpt, msgs, hrk⟩ := read_key_ok cred
    rw [crypto_series_eval s n true today fetch jfetch hl hg hrk]
    rfl
  · intro s n cred today fetch jfetch kOpt msgs inner0 hrk hj
    rw [crypto_rating_eval s n true today fetch jfetch hrk hj]
    rfl

/-- Claim C5, witness: a concrete saving stock run (with a missing
credential file, which does not prevent the save). -/
theorem c5_witness :
    (stock "weekly" "GME" "30min" 0 true none "2026-10-12"
        (fun _ => demoRows)).files =
      ["2026-10-12" ++ "_" ++ "weekly" ++ "_" ++ "GME" ++ "_.csv"] :=
  c5_amended.1 "weekly" "TIME_SERIES_WEEKLY" "GME" "30min" 0 none "2026-10-12"
    (fun _ => demoRows) rfl

/-- Claim C6, counterexample.  With no credential file, the inner body of
read_key does raise, but read_key catches the exception itself, prints the
message and returns None: nothing propagates to the caller. -/
theorem c6_counterexample :
    read_key none = (Except.ok none, [KEY_MISSING_MSG]) ∧
    read_key_body none = Except.error PyErr.avapiJsonFileNotFoundError :=
  ⟨rfl, rfl⟩

/-- Claim C6, amended.  read_key swallows its own errors: missing file,
missing key field and empty key each print a message to standard output
and return None to the caller; otherwise the stored key is returned with
nothing printed. -/
theorem c6_amended :
    (read_key none = (Except.ok none, [KEY_MISSING_MSG])) ∧
    (∀ j, List.lookup "key" j = none →
        read_key (some j) = (Except.ok none, [KEY_EMPTY_MSG])) ∧
    (∀ j k, List.lookup "key" j = some k → k.length = 0 →
        read_key (some j) = (Except.ok none, [KEY_EMPTY_MSG])) ∧
    (∀ j k, List.lookup "key" j = some k → 0 < k.length →
        read_key (some j) = (Except.ok (some k), [])) := by
  refine ⟨rfl, ?_, ?_, ?_⟩
  · intro j hj
    simp [read_key, read_key_body, hj]
  · intro j k hj hk
    simp [read_key, read_key_body, hj, hk]
  · intro j k hj hk
    simp [read_key, read_key_body, hj, show ¬k.length = 0 by omega]

/-- Claim C6, witness at concrete credential files. -/
theorem c6_witness :
    read_key (some [("key", "")]) = (Except.ok none, [KEY_EMPTY_MSG]) ∧
    read_key (some [("key", "ABC")]) = (Except.ok (some "ABC"), []) :=
  ⟨c6_amended.2.2.1 [("key", "")] "" rfl rfl,
   c6_amended.2.2.2 [("key", "ABC")] "ABC" rfl (by decide)⟩

/-- Claim C7, counterexample.  An invalid function argument is caught and
echoed to standard output, the error stream stays empty, and the process
exits with status zero, contradicting the claimed nonzero exit and
error-stream message. -/
theorem c7_counterexample :
    stock "bogus" "IBM" "30min" 0 false (some [("key", "K")]) "2026-10-12"
        (fun _ => demoRows) =
      { stdout := [.msg (INVALID_FN_MSG "bogus")], uncaught := none,
        files := [], urls := [] } ∧
    exitCode (stock "bogus" "IBM" "30min" 0 false (some [("key", "K")]) "2026-10-12"
        (fun _ => demoRows)) = 0 ∧
    stderrOut (stock "bogus" "IBM" "30min" 0 false (some [("key", "K")]) "2026-10-12"
        (fun _ => demoRows)) = [] :=
  ⟨rfl, rfl, rfl⟩

/-- Claim C7, amended.  The handled errors do not follow the claimed
policy: invalid function arguments (stock and crypto) and a missing
credential file all print their message to standard output and exit with
status zero, the missing-credential case even carrying on with the key
rendered as None. -/
theorem c7_amended :
    (∀ function s i n save cred today fetch,
        List.lookup function STOCK_FUNC_LIST = none →
        stock function s i n save cred today fetch =
          { stdout := [.msg (INVALID_FN_MSG function)], uncaught := none,
            files := [], urls := [] }) ∧
    (∀ function s n save cred today fetch jfetch,
        List.lookup function CRYPTO_FUNC_LIST = none →
        crypto function s n save cred today fetch jfetch =
          { stdout := [.msg (INVALID_FN_MSG_CRYPTO function)], uncaught := none,
            files := [], urls := [] }) ∧
    (∀ s i n today fetch,
        stock "daily" s i n false none today fetch =
          { stdout := [.msg KEY_MISSING_MSG,
              .table (get_pandas_df (fetch (BASE_format "TIME_SERIES_DAILY" s "None")) n)],
            uncaught := none, files := [],
            urls := [BASE_format "TIME_SERIES_DAILY" s "None"] }) ∧
    (∀ r : CmdResult, r.uncaught = none → exitCode r = 0 ∧ stderrOut r = []) := by
  refine ⟨?_, ?_, ?_, ?_⟩
  · intro function s i n save cred today fetch hl
    unfold stock stock_body
    rw [hl]
    rfl
  · intro function s n save cred today fetch jfetch hl
    unfold crypto crypto_body
    rw [hl]
    rfl
  · intro s i n today fetch
    exact @stock_eval "daily" "TIME_SERIES_DAILY" none none [KEY_MISSING_MSG]
      s i n false today fetch rfl rfl
  · intro r h
    unfold exitCode stderrOut
    rw [h]
    exact ⟨rfl, rfl⟩

/-- Claim C7, witness: the crypto invalid-function case at concrete
inputs. -/
theorem c7_witness :
    crypto "bogus" "BTC" 0 false (some [("key", "K")]) "2026-10-12"
        (fun _ => demoRows) (fun _ => ratingPayload) =
      { stdout := [.msg (INVALID_FN_MSG_CRYPTO "bogus")], uncaught := none,
        files := [], urls := [] } ∧
    exitCode (crypto "bogus" "BTC" 0 false (some [("key", "K")]) "2026-10-12"
        (fun _ => demoRows) (fun _ => ratingPayload)) = 0 ∧
    stderrOut (crypto "bogus" "BTC" 0 false (some [("key", "K")]) "2026-10-12"
        (fun _ => demoRows) (fun _ => ratingPayload)) = [] := by
  have h := c7_amended.2.1 "bogus" "BTC" 0 false (some [("key", "K")]) "2026-10-12"
    (fun _ => demoRows) (fun _ => ratingPayload) rfl
  refine ⟨h, ?_, ?_⟩ <;> rw [h] <;> rfl

/-- Claim C8, counterexample.  The crypto rating branch does NOT reuse the
stock intraday entry: its URL contains CRYPTO_RATING and does not contain
TIME_SERIES_INTRADAY, and the full crypto handler fetches exactly that
URL. -/
theorem c8_counterexample :
    strContains (crypto_url "rating" "BTC" "K") "TIME_SERIES_INTRADAY" = false ∧
    strContains (crypto_url "rating" "BTC" "K") "CRYPTO_RATING" = true ∧
    (crypto "rating" "BTC" 0 false (some [("key", "K")]) "2026-10-12" (fun _ => [])
        (fun _ => ratingPayload)).urls = [crypto_rating_url "BTC" "K"] :=
  ⟨by decide, by decide, rfl⟩

/-- Claim C8, amended.  The crypto rating request uses CRYPTO_RATING; the
branch that reuses the stock intraday entry (TIME_SERIES_INTRADAY plus an
interval parameter) sits in the STOCK command, guarded by a rating test
that no member of STOCK_FUNC_LIST satisfies, so it is unreachable. -/
theorem c8_amended :
    (∀ s key, strContains (crypto_url "rating" s key) "CRYPTO_RATING" = true) ∧
    (∀ function fn, List.lookup function STOCK_FUNC_LIST = some fn →
        (function == "rating") = false) ∧
    (∀ s i key, stock_url "rating" s i key =
        BASE_format "TIME_SERIES_INTRADAY" s key ++ "&interval=" ++ i) :=
  ⟨fun s key => strContains_crypto_rating s key,
   fun _ _ hl => stock_lookup_ne_rating hl,
   fun _ _ _ => rfl⟩

/-- Claim C8, witness at concrete inputs. -/
theorem c8_witness :
    strContains (crypto_url "rating" "ETH" "K2") "CRYPTO_RATING" = true ∧
    (("daily" : String) == "rating") = false :=
  ⟨c8_amended.1 "ETH" "K2", c8_amended.2.1 "daily" "TIME_SERIES_DAILY" rfl⟩

/-- Claim C9.  exrate never writes a file, and on a successful fetch with
the save flag the filename f-string raises NameError on the unbound name
f after the table has been printed. -/
theorem c9_exrate_save_nameerror :
    (∀ fc tc save cred today jfetch,
        (exrate fc tc save cred today jfetch).files = []) ∧
    (∀ fc tc today cred jfetch kOpt msgs inner0,
        read_key cred = (Except.ok kOpt, msgs) →
        jIndex (jfetch (exrate_url fc tc (keyStr kOpt)))
            "Realtime Currency Exchange Rate" = some inner0 →
        exrate fc tc true cred today jfetch =
          { stdout := msgs.map .msg ++ [.table (json_normalize inner0)],
            uncaught := some (.nameError "f"), files := [],
            urls := [exrate_url fc tc (keyStr kOpt)] }) := by
  refine ⟨fun fc tc save cred today jfetch =>
      exrate_files_nil fc tc save cred today jfetch, ?_⟩
  intro fc tc today cred jfetch kOpt msgs inner0 hrk hj
  rw [exrate_eval fc tc true today jfetch hrk hj]
  rfl

/-- Claim C9, witness: a concrete saving exrate run that prints the table
and then dies with NameError, writing nothing. -/
theorem c9_witness :
    exrate "BTC" "USD" true (some [("key", "K")]) "2026-10-12"
        (fun _ => ratePayload) =
      { stdout := [.table (json_normalize rateInner)],
        uncaught := some (.nameError "f"), files := [],
        urls := [exrate_url "BTC" "USD" "K"] } :=
  c9_exrate_save_nameerror.2 "BTC" "USD" "2026-10-12" (some [("key", "K")])
    (fun _ => ratePayload) (some "K") [] rateInner rfl rfl

/-- Claim C10.  The interval-appending branch of the stock command is
unreachable (no valid function equals rating), so every valid stock URL is
the plain BASE template with no interval parameter, the interval argument
never affects a stock result, and no command ever raises
invalidIntervalError (each commands possible raised exceptions are
exhausted below and exclude it). -/
theorem c10_interval_unreachable :
    (∀ function fn, List.lookup function STOCK_FUNC_LIST = some fn →
        (function == "rating") = false ∧
        ∀ s i key, stock_url function s i key = BASE_format fn s key) ∧
    (∀ function s i i2 n save cred today fetch,
        stock function s i n save cred today fetch =
          stock function s i2 n save cred today fetch) ∧
    (∀ function s i n save cred today fetch,
        (stock_body function s i n save cred today fetch).uncaught = none ∨
        (stock_body function s i n save cred today fetch).uncaught =
          some PyErr.invalidFunctionError) ∧
    (∀ function s n save cred today fetch jfetch,
        (crypto_body function s n save cred today fetch jfetch).uncaught = none ∨
        (crypto_body function s n save cred today fetch jfetch).uncaught =
          some PyErr.invalidFunctionError ∨
        (crypto_body function s n save cred today fetch jfetch).uncaught =
          some (PyErr.keyError "Crypto Rating (FCAS)")) ∧
    (∀ fc tc save cred today jfetch,
        (exrate fc tc save cred today jfetch).uncaught = none ∨
        (exrate fc tc save cred today jfetch).uncaught =
          some (PyErr.keyError "Realtime Currency Exchange Rate") ∨
        (exrate fc tc save cred today jfetch).uncaught =
          some (PyErr.nameError "f")) := by
  refine ⟨?_, fun function s i i2 n save cred today fetch =>
      stock_i_irrelevant function s i i2 n save cred today fetch,
    fun function s i n save cred today fetch =>
      stock_body_uncaught function s i n save cred today fetch,
    fun function s n save cred today fetch jfetch =>
      crypto_body_uncaught function s n save cred today fetch jfetch,
    fun fc tc save cred today jfetch =>
      exrate_uncaught fc tc save cred today jfetch⟩
  intro function fn hl
  refine ⟨stock_lookup_ne_rating hl, fun s i key => ?_⟩
  unfold stock_url
  rw [stock_lookup_ne_rating hl, hl]
  rfl

/-- Claim C10, witness: the intraday entry itself takes the plain
no-interval URL. -/
theorem c10_witness :
    (("intraday" : String) == "rating") = false ∧
    stock_url "intraday" "TSLA" "15min" "K" =
      BASE_format "TIME_SERIES_INTRADAY" "TSLA" "K" :=
  ⟨(c10_interval_unreachable.1 "intraday" "TIME_SERIES_INTRADAY" rfl).1,
   (c10_interval_unreachable.1 "intraday" "TIME_SERIES_INTRADAY" rfl).2 "TSLA" "15min" "K"⟩

end Avapi
